import Mathlib

/-
Verification of the alarm-controller core of the remote_alarm server
(src/app.py) against its natural-language specification.

The embedding below translates the shared state held by `AlarmState`, the
five controller operations (`play_once`, `play_loop`, `stop_all`,
`stop_delayed`, `set_volume`), the status report `get_info`, and the three
background task bodies (the `monitor` closure of `play_once`, the
`loop_worker` closure of `play_loop`, and the `delayed_worker` closure of
`stop_delayed`) into Lean.

Modelling choices:
- Wall-clock time (`time.time()` / `datetime.now()`) is a rational number of
  seconds carried in the configuration; a `time.sleep(d)` performed by a
  background task advances it by `d`.
- The pygame mixer is modelled by two fields: `mixerPlaying`
  (`pygame.mixer.music.get_busy()`; set by `play(...)`, cleared by `stop()`)
  and `mixerVolume` (the gain last passed to `set_volume`).
- `os.path.exists` on the alarm file is an environment bit `fileExists`;
  a pygame load/play exception in `play_once` is the environment bit
  `backendFails` (the exception text is abstracted to "backend error").
- Each `threading.Thread(...).start()` appends a `Task` value to the `tasks`
  list of the configuration: a task is in the list from the moment it is
  spawned until its body runs to completion.  No operation of the source
  ever joins or removes a thread, so the request-handler functions below
  never shrink this list.
- The body of each background task is given as a function that runs the
  thread in isolation (no interference from other threads), with explicit
  fuel where the source loop is bounded only by the clock.  Running a
  handler to completion and then a worker to completion are legal schedules
  of the real program, so every concrete execution exhibited below is a
  real trace.
-/

namespace RemoteAlarm

/-- Lifecycle phase of the alarm: the four string values of
`AlarmState.status` in the source. -/
inductive Status
  | idle
  | playing
  | looping
  | stopping_soon
deriving DecidableEq, Repr

/-- The fields of `AlarmState` that the operations read and write
(`lock`, `loop_thread` and `delayed_stop_thread` are represented by the
`tasks` list of `Sys`; the lock discipline is modelled separately by the
access traces at the end of the definitions). -/
structure AlarmSt where
  status : Status
  stop_event : Bool
  loop_end_time : Option ℚ
  volume : ℚ
deriving DecidableEq, Repr

/-- A live background thread: `loopStart` is a `loop_worker` that has been
spawned but has not yet executed its prologue (load / play / compute
`end_time`), `loopPoll` is a `loop_worker` inside its polling loop with its
computed `end_time`, `delayedW` is a `delayed_worker` with its remaining
number of 0.1 s polling iterations, `monitorW` is the `monitor` thread of
`play_once`. -/
inductive Task
  | loopStart (duration_hours : ℚ)
  | loopPoll (end_time : ℚ)
  | delayedW (remaining : Nat)
  | monitorW
deriving DecidableEq, Repr

/-- Whether a task is one of the two timed background tasks of the spec
(loop-duration timer or delayed-stop timer); the ephemeral `monitor` of
`play_once` is not a timed task. -/
def Task.isTimed : Task → Bool
  | .loopStart _ => true
  | .loopPoll _ => true
  | .delayedW _ => true
  | .monitorW => false

/-- Whole-system configuration: shared `AlarmState`, the pygame mixer, the
wall clock, the environment, and the list of live background threads. -/
structure Sys where
  st : AlarmSt
  mixerPlaying : Bool
  mixerVolume : ℚ
  now : ℚ
  fileExists : Bool
  backendFails : Bool
  tasks : List Task
deriving DecidableEq, Repr

/-- Number of live timed background tasks. -/
def timedCount (c : Sys) : Nat :=
  (c.tasks.filter Task.isTimed).length

/-- The ALARM_FILE configuration constant. -/
def ALARM_FILE : String := "alarm.mp3"

/-- Source `get_alarm_path`: the source prefixes the application directory
(an environment detail with no bearing on the claims); the model keeps the
configured file name. -/
def get_alarm_path : String := ALARM_FILE

/-- Source `check_alarm_file`: `(True, path)` when the file exists,
`(False, "Alarm file not found: " ++ path)` otherwise. -/
def check_alarm_file (c : Sys) : Bool × String :=
  if c.fileExists then (true, get_alarm_path)
  else (false, "Alarm file not found: " ++ get_alarm_path)

/-- Source `AlarmState.set_status` (the lock acquisition is modelled by the
access traces below). -/
def set_status (s : Status) (c : Sys) : Sys :=
  { c with st := { c.st with status := s } }

/-- Source `stop_all`: sets the stop event, stops the mixer, clears
`loop_end_time`, sets status to idle, returns `(True, "Stopped")`.  It does
not join or remove any thread. -/
def stop_all (c : Sys) : (Bool × String) × Sys :=
  ((true, "Stopped"),
    set_status .idle
      { c with
        st := { c.st with stop_event := true, loop_end_time := none }
        mixerPlaying := false })

/-- Source `play_once` (handler part).  On a missing file it returns the
failure before touching any state.  Otherwise it cold-stops via `stop_all`,
sets status to playing, loads and plays the file at the current volume
(unless the backend raises, in which case the `except` branch resets status
to idle and reports failure), and spawns the `monitor` thread. -/
def play_once (c : Sys) : (Bool × String) × Sys :=
  let chk := check_alarm_file c
  if chk.1 = false then ((false, chk.2), c)
  else
    let c1 := set_status .playing (stop_all c).2
    if c1.backendFails then
      ((false, "backend error"), set_status .idle c1)
    else
      ((true, "Playing alarm once"),
        { c1 with
          mixerVolume := c1.st.volume
          mixerPlaying := true
          tasks := Task.monitorW :: c1.tasks })

/-- Source `play_loop` (handler part): cold-stop via `stop_all`, status to
looping, clear the stop event, store `loop_end_time = now + hours`, spawn
the `loop_worker` thread (the load / play / `end_time` computation happen
inside the worker, not here), return success immediately. -/
def play_loop (duration_hours : ℚ) (c : Sys) : (Bool × String) × Sys :=
  let chk := check_alarm_file c
  if chk.1 = false then ((false, chk.2), c)
  else
    let c1 := set_status .looping (stop_all c).2
    let c2 :=
      { c1 with
        st := { c1.st with
                stop_event := false
                loop_end_time := some (c1.now + duration_hours * 3600) } }
    ((true, "Looping alarm for " ++ toString duration_hours ++ " hours"),
      { c2 with tasks := Task.loopStart duration_hours :: c2.tasks })

/-- Source `stop_delayed` (handler part): rejected with
`"Nothing is playing"` when status is idle; otherwise sets status to
stopping_soon and spawns the `delayed_worker` thread with
`delay_seconds * 10` polling iterations.  It touches neither the stop event
nor the mixer. -/
def stop_delayed (delay_seconds : Nat) (c : Sys) : (Bool × String) × Sys :=
  if c.st.status = .idle then ((false, "Nothing is playing"), c)
  else
    let c1 := set_status .stopping_soon c
    ((true, s!"Stopping in {delay_seconds} seconds"),
      { c1 with tasks := Task.delayedW (delay_seconds * 10) :: c1.tasks })

/-- Source `set_volume`: clamps the integer percentage to [0, 100], divides
by 100, stores the gain and applies it to the mixer, always succeeds. -/
def set_volume (volume_percent : Int) (c : Sys) : (Bool × String) × Sys :=
  let volume : ℚ := ((max 0 (min 100 volume_percent) : Int) : ℚ) / 100
  ((true, s!"Volume set to {volume_percent}%"),
    { c with
      st := { c.st with volume := volume }
      mixerVolume := volume })

/-- Python `int(...)` on a rational: truncation toward zero. -/
def pyInt (x : ℚ) : Int :=
  if 0 ≤ x then Int.floor x else Int.ceil x

/-- The status report returned by `AlarmState.get_info`. -/
structure Info where
  status : Status
  volume : Int
  remaining : Option String
deriving DecidableEq, Repr

/-- The `f"{hours}h {minutes}m {seconds}s"` formatting of `get_info`,
applied to `int(remaining.total_seconds())` via
`divmod(_, 3600)` and `divmod(_, 60)`. -/
def fmt_remaining (total : Nat) : String :=
  let hours := total / 3600
  let remainder := total % 3600
  let minutes := remainder / 60
  let seconds := remainder % 60
  s!"{hours}h {minutes}m {seconds}s"

/-- Source `AlarmState.get_info`: reports status and volume percentage; the
`remaining` entry is present exactly when status is looping and
`loop_end_time` is set (a `datetime` is always truthy), holding the
formatted `loop_end_time - now` when positive and `"ending..."`
otherwise. -/
def get_info (c : Sys) : Info :=
  let base : Info :=
    { status := c.st.status, volume := pyInt (c.st.volume * 100), remaining := none }
  if c.st.status = .looping then
    match c.st.loop_end_time with
    | some endT =>
        let remaining := endT - c.now
        if 0 < remaining then
          { base with remaining := some (fmt_remaining (pyInt remaining).toNat) }
        else
          { base with remaining := some ("ending...") }
    | none => base
  else base

/-- Final action of the `monitor` closure in `play_once` (lines 172-173):
once the mixer is no longer busy, set status to idle only when it is still
playing; otherwise leave the state untouched. -/
def monitor_finish (c : Sys) : Sys :=
  if c.st.status = .playing then set_status .idle c else c

/-- The `monitor` closure run in isolation: poll `get_busy()` every 0.1 s
(the mixer does not stop by itself in an isolated run, so the poll loop is
bounded by fuel and yields `none` when playback never ends within it);
when the mixer is not busy, perform `monitor_finish`. -/
def monitor_run : Nat → Sys → Option Sys
  | 0, c =>
      if c.mixerPlaying then none else some (monitor_finish c)
  | fuel + 1, c =>
      if c.mixerPlaying then monitor_run fuel { c with now := c.now + 1/10 }
      else some (monitor_finish c)

/-- The `delayed_worker` closure of `stop_delayed` run in isolation:
`for _ in range(delay_seconds * 10)` it returns as soon as the stop event
is set or status is idle, sleeping 0.1 s between polls; when the loop runs
out it performs a full `stop_all`.  The argument is the number of
iterations still to run. -/
def delayed_worker_run : Nat → Sys → Sys
  | 0, c => (stop_all c).2
  | n + 1, c =>
      if c.st.stop_event = true ∨ c.st.status = .idle then c
      else delayed_worker_run n { c with now := c.now + 1/10 }

/-- Epilogue of the `loop_worker` closure (lines 205-208): stop the mixer
and set status to idle (this runs whether or not the stop event fired; the
`except` branch likewise sets status to idle). -/
def loop_finish (c : Sys) : Sys :=
  set_status .idle { c with mixerPlaying := false }

/-- Prologue of the `loop_worker` closure: load the file, apply the current
volume, start infinite-repeat playback, and compute
`end_time = time.time() + duration_hours * 3600`. -/
def loop_worker_start (duration_hours : ℚ) (c : Sys) : ℚ × Sys :=
  (c.now + duration_hours * 3600,
    { c with mixerVolume := c.st.volume, mixerPlaying := true })

/-- Polling loop of `loop_worker` run in isolation:
`while time.time() < end_time and not stop_event` sleep 0.5 s, then
`loop_finish`.  Fuel bounds the number of iterations; `none` means the
fuel ran out before the deadline or a cancellation was observed. -/
def loop_poll_run : Nat → ℚ → Sys → Option Sys
  | 0, endT, c =>
      if c.now < endT ∧ c.st.stop_event = false then none
      else some (loop_finish c)
  | fuel + 1, endT, c =>
      if c.now < endT ∧ c.st.stop_event = false then
        loop_poll_run fuel endT { c with now := c.now + 1/2 }
      else some (loop_finish c)

/-- The configuration at process start (`AlarmState.__init__`: idle, stop
event unset, no loop end time, volume 1.0, mixer quiet, no threads), with
the alarm file present and a healthy backend. -/
def initSys : Sys :=
  { st := { status := .idle, stop_event := false, loop_end_time := none, volume := 1 }
    mixerPlaying := false
    mixerVolume := 1
    now := 0
    fileExists := true
    backendFails := false
    tasks := [] }

/-- C3: StopAll, called from any status, always succeeds with
`(True, "Stopped")`, signals cancellation (sets the stop event), stops the
mixer, clears `loop_end_time`, sets status to idle, and is idempotent:
repeating it yields the same result and the same resulting state. -/
theorem C3_stop_all_idempotent (c : Sys) :
    (stop_all c).1 = (true, "Stopped") ∧
    ((stop_all c).2).st.status = .idle ∧
    ((stop_all c).2).st.loop_end_time = none ∧
    ((stop_all c).2).st.stop_event = true ∧
    ((stop_all c).2).mixerPlaying = false ∧
    stop_all ((stop_all c).2) = stop_all c := by
  simp [stop_all, set_status]

/-- C5: when the alarm file is not resolvable, both `play_once` and
`play_loop` return the resource failure and leave the configuration
entirely unchanged — status, volume, `loop_end_time`, stop event, mixer and
task list included (no background task is spawned). -/
theorem C5_resource_unavailable (c : Sys) (d : ℚ)
    (h : c.fileExists = false) :
    play_once c = ((false, "Alarm file not found: " ++ get_alarm_path), c) ∧
    play_loop d c = ((false, "Alarm file not found: " ++ get_alarm_path), c) := by
  constructor <;> simp [play_once, play_loop, check_alarm_file, h]

/-- C5 witness: `play_once` on the initial configuration with the alarm
file missing fails and changes nothing. -/
theorem C5_resource_unavailable_witness :
    play_once { initSys with fileExists := false } =
      ((false, "Alarm file not found: " ++ get_alarm_path),
        { initSys with fileExists := false }) :=
  (C5_resource_unavailable { initSys with fileExists := false } 6 rfl).1

/-- C6: `stop_delayed` called while status is idle fails with
`"Nothing is playing"` and leaves the configuration entirely unchanged (in
particular no background task is spawned and status stays idle). -/
theorem C6_nothing_to_stop (c : Sys) (d : Nat)
    (h : c.st.status = .idle) :
    stop_delayed d c = ((false, "Nothing is playing"), c) := by
  simp [stop_delayed, h]

/-- C6 witness: `stop_delayed 10` on the initial (idle) configuration. -/
theorem C6_nothing_to_stop_witness :
    stop_delayed 10 initSys = ((false, "Nothing is playing"), initSys) :=
  C6_nothing_to_stop initSys 10 rfl

/-- C7: `set_volume` always succeeds, stores the clamped percentage divided
by 100 and applies the same gain to the mixer, the gain is always within
[0, 1], status is untouched whatever it is, and the concrete inputs 150 and
-10 yield gains 1 and 0. -/
theorem C7_set_volume_clamps (p : Int) (c : Sys) :
    (set_volume p c).1.1 = true ∧
    ((set_volume p c).2).st.volume = ((max 0 (min 100 p) : Int) : ℚ) / 100 ∧
    ((set_volume p c).2).mixerVolume = ((set_volume p c).2).st.volume ∧
    0 ≤ ((set_volume p c).2).st.volume ∧
    ((set_volume p c).2).st.volume ≤ 1 ∧
    ((set_volume p c).2).st.status = c.st.status ∧
    ((set_volume 150 c).2).mixerVolume = 1 ∧
    ((set_volume (-10) c).2).mixerVolume = 0 := by
  refine ⟨rfl, rfl, rfl, ?_, ?_, rfl, ?_, ?_⟩
  · apply div_nonneg _ (by norm_num)
    exact_mod_cast le_max_left 0 (min 100 p)
  · rw [show ((set_volume p c).2).st.volume
        = ((max 0 (min 100 p) : Int) : ℚ) / 100 from rfl,
      div_le_one (by norm_num)]
    exact_mod_cast max_le (by norm_num) (min_le_left (100 : Int) p)
  · norm_num [set_volume]
  · norm_num [set_volume]

/-- C4: once playback has naturally ended (the mixer is no longer busy),
the monitor task performs `monitor_finish`, which sets status to idle only
when status is still playing at that moment and otherwise leaves the
configuration completely unchanged. -/
theorem C4_monitor_guard (c : Sys) (fuel : Nat)
    (h : c.mixerPlaying = false) :
    monitor_run fuel c = some (monitor_finish c) ∧
    (c.st.status = .playing → monitor_finish c = set_status .idle c) ∧
    (c.st.status ≠ .playing → monitor_finish c = c) := by
  refine ⟨?_, ?_, ?_⟩
  · cases fuel <;> simp [monitor_run, h]
  · intro hp
    simp [monitor_finish, hp]
  · intro hp
    simp [monitor_finish, hp]

/-- C4 witness: a monitor waking up after a loop has already superseded the
single play leaves the looping status untouched. -/
theorem C4_monitor_guard_witness :
    monitor_finish (set_status .looping initSys) = set_status .looping initSys :=
  (C4_monitor_guard (set_status .looping initSys) 5 rfl).2.2 (by decide)

/-- C9: `get_info` carries a `remaining` entry exactly when status is
looping and `loop_end_time` is set; the entry is the hours/minutes/seconds
rendering of `loop_end_time - now` when that difference is positive and the
sentinel `"ending..."` otherwise. -/
theorem C9_remaining_report (c : Sys) :
    ((get_info c).remaining.isSome ↔
      (c.st.status = .looping ∧ c.st.loop_end_time.isSome)) ∧
    (∀ e : ℚ, c.st.status = .looping → c.st.loop_end_time = some e →
      (0 < e - c.now →
        (get_info c).remaining = some (fmt_remaining (pyInt (e - c.now)).toNat)) ∧
      (e - c.now ≤ 0 → (get_info c).remaining = some ("ending..."))) := by
  constructor
  · unfold get_info
    by_cases hs : c.st.status = .looping
    · cases hlet : c.st.loop_end_time with
      | none => simp [hs, hlet]
      | some e =>
          by_cases hr : 0 < e - c.now <;> simp [hs, hlet, hr]
    · simp [hs]
  · intro e hs he
    constructor
    · intro hpos
      simp [get_info, hs, he, hpos]
    · intro hnp
      simp [get_info, hs, he, not_lt.mpr hnp]

/-- C9 witness: a looping configuration 5 seconds from its nominal end
reports the formatted remaining time. -/
theorem C9_remaining_report_witness :
    (get_info { initSys with
        st := { initSys.st with status := .looping, loop_end_time := some 5 } }).remaining
      = some (fmt_remaining (pyInt (5 - (0 : ℚ))).toNat) :=
  ((C9_remaining_report { initSys with
      st := { initSys.st with status := .looping, loop_end_time := some 5 } }).2
    5 rfl rfl).1 (by norm_num [initSys])

/-- C10: the shared stop event is set by `stop_all` (hence by any
`play_once` that got past the file check, which calls it internally) and is
preserved by `stop_delayed`, `set_volume` and the task epilogues; only
`play_loop` ever clears it.  Consequently a delayed-stop worker spawned
while the event is still set from an earlier `play_once` observes it on its
very first poll and returns with the whole configuration unchanged —
playback keeps running and status is not touched. -/
theorem C10_cancel_signal_stale :
    (∀ c : Sys, c.fileExists = true → ((play_once c).2).st.stop_event = true) ∧
    (∀ c : Sys, ((stop_all c).2).st.stop_event = true) ∧
    (∀ (d : Nat) (c : Sys),
      ((stop_delayed d c).2).st.stop_event = c.st.stop_event) ∧
    (∀ (p : Int) (c : Sys),
      ((set_volume p c).2).st.stop_event = c.st.stop_event) ∧
    (∀ c : Sys, (monitor_finish c).st.stop_event = c.st.stop_event) ∧
    (∀ c : Sys, (loop_finish c).st.stop_event = c.st.stop_event) ∧
    (∀ c : Sys, c.fileExists = true →
      ((play_loop 6 c).2).st.stop_event = false) ∧
    (∀ (n : Nat) (c : Sys), c.st.stop_event = true →
      delayed_worker_run (n + 1) c = c) := by
  refine ⟨?_, ?_, ?_, ?_, ?_, ?_, ?_, ?_⟩
  · intro c h
    by_cases hb : c.backendFails <;>
      simp [play_once, check_alarm_file, h, stop_all, set_status, hb]
  · intro c
    simp [stop_all, set_status]
  · intro d c
    by_cases hs : c.st.status = .idle <;> simp [stop_delayed, set_status, hs]
  · intro p c
    simp [set_volume]
  · intro c
    by_cases hs : c.st.status = .playing <;> simp [monitor_finish, set_status, hs]
  · intro c
    simp [loop_finish, set_status]
  · intro c h
    simp [play_loop, check_alarm_file, h, stop_all, set_status]
  · intro n c h
    simp [delayed_worker_run, h]

/-- C10 witness: after `play_once` from the initial state the stop event is
set, and the delayed worker spawned by a following `stop_delayed 10`
returns immediately with nothing changed. -/
theorem C10_cancel_signal_stale_witness :
    ((play_once initSys).2).st.stop_event = true ∧
    delayed_worker_run 100 ((stop_delayed 10 ((play_once initSys).2)).2) =
      (stop_delayed 10 ((play_once initSys).2)).2 :=
  ⟨C10_cancel_signal_stale.1 initSys rfl,
    C10_cancel_signal_stale.2.2.2.2.2.2.2 99
      ((stop_delayed 10 ((play_once initSys).2)).2) (by decide)⟩

/-- The configuration reached by running `play_once` and then
`stop_delayed 10` to completion from process start — a legal schedule in
which the delayed worker has not yet run. -/
def c2_stuck : Sys := (stop_delayed 10 ((play_once initSys).2)).2

/-- C2: evaluation of the code at the failing input.  `stop_delayed 10`
after a successful `play_once` is accepted and sets status to
stopping_soon, but the stop event is still set from the `stop_all` that
`play_once` ran internally (nothing ever cleared it), so the delayed
worker returns on its very first poll without performing `stop_all`: the
mixer keeps playing and status stays stopping_soon.  Even after playback
later ends on its own, the monitor of `play_once` refuses to touch a
status that is not playing, so stopping_soon is never resolved to idle —
contrary to the claim (and to the intent of `stop_delayed`, whose
docstring promises to stop audio after the delay). -/
theorem C2_delayed_stop_stuck :
    (stop_delayed 10 ((play_once initSys).2)).1.1 = true ∧
    c2_stuck.st.status = .stopping_soon ∧
    c2_stuck.mixerPlaying = true ∧
    c2_stuck.st.stop_event = true ∧
    delayed_worker_run 100 c2_stuck = c2_stuck ∧
    monitor_finish { c2_stuck with mixerPlaying := false } =
      { c2_stuck with mixerPlaying := false } := by
  refine ⟨by decide, by decide, by decide, by decide, by decide, by decide⟩

/-- The configuration reached by running `play_loop 6` and then
`stop_delayed 10` to completion from process start — a legal schedule in
which neither spawned worker has run yet. -/
def c1_trace : Sys := (stop_delayed 10 ((play_loop 6 initSys).2)).2

/-- C1 counterexample: after `play_loop 6` immediately followed by
`stop_delayed 10` (both handlers run to completion, a legal schedule), the
loop worker and the delayed worker are both live, so two background timed
tasks are active at the same instant; moreover neither is about to retire —
the stop event is clear and status is stopping_soon, so the delayed
worker's abort condition is false, and the loop worker's deadline
(now + 6 * 3600) is far in the future.  `stop_delayed` requested no
cancellation at all, and no operation waited for the previous task to
retire. -/
theorem C1_two_timed_tasks_active :
    c1_trace.tasks = [Task.delayedW 100, Task.loopStart 6] ∧
    timedCount c1_trace = 2 ∧
    c1_trace.st.stop_event = false ∧
    c1_trace.st.status = .stopping_soon ∧
    ¬(c1_trace.st.stop_event = true ∨ c1_trace.st.status = .idle) ∧
    c1_trace.now < c1_trace.now + 6 * 3600 := by
  refine ⟨by decide, by decide, by decide, by decide, by decide, by norm_num⟩

/-- C1 amended: `play_once` and `play_loop` signal cancellation through
their internal `stop_all` (setting the shared stop event, which `play_loop`
then clears for its own worker) before spawning the new task, but no
operation waits for retirement of a previously active background task —
the previous tasks stay live alongside the newly spawned one — and
`stop_delayed` neither signals cancellation nor waits; hence two timed
background tasks can be active at one instant. -/
theorem C1_no_retirement_wait :
    (∀ (d : Nat) (c : Sys),
      ((stop_delayed d c).2).st.stop_event = c.st.stop_event ∧
      ((stop_delayed d c).2).mixerPlaying = c.mixerPlaying) ∧
    (∀ c : Sys, c.fileExists = true →
      ((play_loop 6 c).2).tasks = Task.loopStart 6 :: c.tasks) ∧
    (∀ c : Sys, c.fileExists = true → c.backendFails = false →
      ((play_once c).2).tasks = Task.monitorW :: c.tasks) ∧
    (∀ (d : Nat) (c : Sys), c.st.status ≠ .idle →
      ((stop_delayed d c).2).tasks = Task.delayedW (d * 10) :: c.tasks) ∧
    timedCount c1_trace = 2 := by
  refine ⟨?_, ?_, ?_, ?_, by decide⟩
  · intro d c
    by_cases hs : c.st.status = .idle <;> simp [stop_delayed, set_status, hs]
  · intro c h
    simp [play_loop, check_alarm_file, h, stop_all, set_status]
  · intro c h hb
    simp [play_once, check_alarm_file, h, stop_all, set_status, hb]
  · intro d c hs
    simp [stop_delayed, set_status, hs]

/-- C1 amended witness: the trace behind `c1_trace`, step by step from the
initial configuration. -/
theorem C1_no_retirement_wait_witness :
    ((play_loop 6 initSys).2).tasks = Task.loopStart 6 :: initSys.tasks ∧
    ((stop_delayed 10 ((play_loop 6 initSys).2)).2).tasks =
      Task.delayedW 100 :: ((play_loop 6 initSys).2).tasks :=
  ⟨C1_no_retirement_wait.2.1 initSys rfl,
    C1_no_retirement_wait.2.2.2.1 10 ((play_loop 6 initSys).2) (by decide)⟩

/-- The three shared `AlarmState` fields named by the locking invariant. -/
inductive SField
  | status
  | volume
  | loop_end_time
deriving DecidableEq, Repr

/-- Read or write. -/
inductive AccessKind
  | read
  | write
deriving DecidableEq, Repr

/-- One access to a shared field, with the flag saying whether the
controller lock is held around it. -/
structure Access where
  fld : SField
  kind : AccessKind
  underLock : Bool
deriving DecidableEq, Repr

/-- Accesses of `AlarmState.set_status`: the status write inside
`with self.lock`. -/
def set_status_accesses : List Access :=
  [⟨.status, .write, true⟩]

/-- Accesses of `AlarmState.get_status`: the status read inside
`with self.lock`. -/
def get_status_accesses : List Access :=
  [⟨.status, .read, true⟩]

/-- Accesses of `AlarmState.get_info`, all inside `with self.lock`: status
and volume for the dict, status in the looping test, `loop_end_time` in the
truthiness test and in the subtraction. -/
def get_info_accesses : List Access :=
  [⟨.status, .read, true⟩, ⟨.volume, .read, true⟩, ⟨.status, .read, true⟩,
    ⟨.loop_end_time, .read, true⟩, ⟨.loop_end_time, .read, true⟩]

/-- Accesses of `stop_all`: the bare `state.loop_end_time = None`
(line 222, no lock) followed by `set_status("idle")`. -/
def stop_all_accesses : List Access :=
  [⟨.loop_end_time, .write, false⟩] ++ set_status_accesses

/-- Accesses of the `play_once` handler: its internal `stop_all`, then
`set_status("playing")`, then the bare `state.volume` read passed to
`set_volume` (line 164, no lock). -/
def play_once_accesses : List Access :=
  stop_all_accesses ++ set_status_accesses ++ [⟨.volume, .read, false⟩]

/-- Accesses of the `monitor` closure: `get_status` then possibly
`set_status("idle")`, both through the locked methods. -/
def monitor_accesses : List Access :=
  get_status_accesses ++ set_status_accesses

/-- Accesses of the `play_loop` handler: its internal `stop_all`,
`set_status("looping")`, then the bare `state.loop_end_time = ...` write
(line 192, no lock). -/
def play_loop_accesses : List Access :=
  stop_all_accesses ++ set_status_accesses ++ [⟨.loop_end_time, .write, false⟩]

/-- Accesses of the `loop_worker` closure: the bare `state.volume` read
(line 197, no lock) and the final `set_status("idle")`. -/
def loop_worker_accesses : List Access :=
  [⟨.volume, .read, false⟩] ++ set_status_accesses

/-- Accesses of the `stop_delayed` handler: `get_status` for the idle
check, then `set_status("stopping_soon")`. -/
def stop_delayed_accesses : List Access :=
  get_status_accesses ++ set_status_accesses

/-- Accesses of the `delayed_worker` closure: a `get_status` per poll and,
on timeout, the accesses of `stop_all`. -/
def delayed_worker_accesses : List Access :=
  get_status_accesses ++ stop_all_accesses

/-- Accesses of `set_volume`: the bare `state.volume = volume` write
(line 252, no lock). -/
def set_volume_accesses : List Access :=
  [⟨.volume, .write, false⟩]

/-- Every access to the shared fields performed anywhere in the
controller: handlers, task bodies and the `AlarmState` methods. -/
def all_accesses : List Access :=
  play_once_accesses ++ monitor_accesses ++ play_loop_accesses ++
    loop_worker_accesses ++ stop_all_accesses ++ stop_delayed_accesses ++
    delayed_worker_accesses ++ set_volume_accesses ++ get_info_accesses ++
    get_status_accesses ++ set_status_accesses

/-- C8 counterexample: the claim that every access to status, volume and
`loop_end_time` holds the lock fails — `set_volume` writes `volume`,
`play_loop` writes `loop_end_time`, `stop_all` writes `loop_end_time` and
`play_once` reads `volume`, all without the lock. -/
theorem C8_unlocked_accesses_exist :
    (⟨.volume, .write, false⟩ : Access) ∈ set_volume_accesses ∧
    (⟨.loop_end_time, .write, false⟩ : Access) ∈ play_loop_accesses ∧
    (⟨.loop_end_time, .write, false⟩ : Access) ∈ stop_all_accesses ∧
    (⟨.volume, .read, false⟩ : Access) ∈ play_once_accesses ∧
    (all_accesses.all fun a => a.underLock) = false := by
  refine ⟨by decide, by decide, by decide, by decide, by decide⟩

/-- C8 amended: only `status` enjoys the locking discipline — every status
access anywhere in the controller goes through the locked `set_status` /
`get_status` / `get_info` methods — while `volume` and `loop_end_time` are
also read and written bare, outside the lock. -/
theorem C8_only_status_locked :
    (all_accesses.all fun a =>
      if a.fld = SField.status then a.underLock else true) = true ∧
    (all_accesses.all fun a =>
      if a.fld = SField.volume then a.underLock else true) = false ∧
    (all_accesses.all fun a =>
      if a.fld = SField.loop_end_time then a.underLock else true) = false := by
  refine ⟨by decide, by decide, by decide⟩

end RemoteAlarm
